import Mathlib

/-!
Verification development for the `dc-fetch` library: a thin wrapper around an
HTTP client (axios) exposing `get/post/put/patch/del/singleGet`, and a
higher-order component that injects those methods and cancels recorded request
handles on teardown.

The JavaScript sources embedded here are `src/dc-fetch.js` and
`src/react-hoc.jsx`.  Data payloads, options objects and axios request
configurations are modelled shallowly; promise settlement is modelled as a
function from the outcome of the underlying HTTP call to a settlement record
stating how the wrapper promise ends and which notification hooks were invoked
with which arguments.  Cancel tokens are modelled by natural-number identities
drawn from a counter threaded through the calls.
-/

set_option autoImplicit false

/-- A JavaScript data value as it flows through `fetch`: either a plain object
(modelled as an association list of string fields, the only shape the wrapper
inspects) or a string (the result of form-encoding). -/
inductive JsData where
  | obj (fields : List (String × String))
  | str (s : String)
  deriving DecidableEq, Repr

/-- JavaScript truthiness for the values `JsData` can take: objects are always
truthy, a string is truthy iff nonempty. -/
def jsTruthy : JsData → Bool
  | .obj _ => true
  | .str s => !(s == "")

/-- `data = data || {}` from `fetch` (line 97 of dc-fetch.js): `none` models a
missing/null argument. -/
def jsOrEmpty : Option JsData → JsData
  | none => JsData.obj []
  | some d => if jsTruthy d then d else JsData.obj []

/-- `needle.isPrefixOf hay` on character lists. -/
def charsStartWith : List Char → List Char → Bool
  | [], _ => true
  | _ :: _, [] => false
  | c :: cs, d :: ds => c == d && charsStartWith cs ds

/-- Substring occurrence on character lists. -/
def charsContain (needle : List Char) : List Char → Bool
  | [] => needle.isEmpty
  | c :: rest => charsStartWith needle (c :: rest) || charsContain needle rest

/-- `hay.indexOf(needle) > -1` of JavaScript: substring containment. -/
def strContains (hay needle : String) : Bool :=
  charsContain needle.toList hay.toList

/-- The content type that triggers form-encoding in `fetch`. -/
def formNeedle : String := "application/x-www-form-urlencoded"

/-- Model of the external `qs.stringify` dependency: the wrapper only relies on
it to turn the payload into a form-encoded string, so only the object case
matters; the claims never depend on the exact encoded text. -/
def qsStringify : JsData → String
  | .obj fields => String.intercalate "&" (fields.map fun kv => kv.1 ++ "=" ++ kv.2)
  | .str s => s

/-- The form-encoding step of `fetch` (dc-fetch.js lines 135-142): the payload
is stringified when the instance's default Content-Type for the method is a
nonempty string containing the form content type, or the per-call header
contains it.  The truthiness guard on `defaultsContentType` is kept exactly as
in the source. -/
def encodeData (defaultsContentType contentType : String) (d : JsData) : JsData :=
  if (!(defaultsContentType == "") && strContains defaultsContentType formNeedle)
      || strContains contentType formNeedle
  then JsData.str (qsStringify d) else d

/-- The slice of an axios headers object that the wrapper reads:
`headers['Content-Type']`. -/
structure Headers where
  contentType : Option String := none
  deriving DecidableEq, Repr

/-- Per-method default headers of an axios instance
(`instance.defaults.headers[method]` for the five methods the wrapper issues). -/
structure MethodHeaders where
  get : Headers := {}
  post : Headers := {}
  put : Headers := {}
  patch : Headers := {}
  delete : Headers := {}
  deriving DecidableEq, Repr

/-- `instance.defaults.headers[method]`: indexing by an unknown method name
yields `undefined` in JavaScript (and the subsequent property read throws),
modelled by `none`. -/
def headersFor (h : MethodHeaders) : String → Option Headers
  | "get" => some h.get
  | "post" => some h.post
  | "put" => some h.put
  | "patch" => some h.patch
  | "delete" => some h.delete
  | _ => none

/-- The axios instance defaults the wrapper touches (`instance.defaults`). -/
structure AxiosDefaults where
  timeout : Nat := 0
  headers : MethodHeaders := {}
  baseURL : String := ""
  withCredentials : Bool := false
  deriving DecidableEq, Repr

/-- `setDefaultOption` (dc-fetch.js lines 79-85): fixes timeout, post/put
Content-Type, baseURL and withCredentials, leaving every other default of the
freshly created axios instance alone. -/
def setDefaultOption (d : AxiosDefaults) : AxiosDefaults :=
  { d with
    timeout := 10000
    headers := { d.headers with
      post := { d.headers.post with contentType := some "application/json" }
      put := { d.headers.put with contentType := some "application/json" } }
    baseURL := "/"
    withCredentials := true }

/-- The value of the `successTip` / `errorTip` options: JavaScript lets callers
pass either a boolean (`false` disables the tip) or a message string. -/
inductive TipVal where
  | bool (b : Bool)
  | str (s : String)
  deriving DecidableEq, Repr

/-- The options object accepted by `fetch`: the keys the wrapper itself reads
(`successTip`, `errorTip`, `headers`) together with the axios configuration
keys a caller can use to override what the dispatcher builds (the `...options`
spread).  `none` models an absent key. -/
structure FetchOptions where
  successTip : Option TipVal := none
  errorTip : Option TipVal := none
  headers : Option Headers := none
  method : Option String := none
  url : Option String := none
  data : Option JsData := none
  params : Option JsData := none
  cancelToken : Option Nat := none
  timeout : Option Nat := none
  withCredentials : Option Bool := none
  deriving DecidableEq, Repr

/-- `(options.headers && options.headers['Content-Type']) || ''`
(dc-fetch.js line 136). -/
def optionsContentType (options : FetchOptions) : String :=
  match options.headers with
  | some h => h.contentType.getD ""
  | none => ""

/-- The request configuration handed to the axios instance:
`{method, url, data, params, cancelToken, ...options}` (dc-fetch.js lines
151-157).  The trailing fields are the keys the spread can add on top. -/
structure RequestConfig where
  method : String
  url : String
  data : JsData
  params : JsData
  cancelToken : Nat
  headers : Option Headers := none
  timeout : Option Nat := none
  withCredentials : Option Bool := none
  successTip : Option TipVal := none
  errorTip : Option TipVal := none
  deriving DecidableEq, Repr

/-- The message object a cancellation carries: `cancel({canceled: true})`
passes an object, axios errors otherwise carry a string message. -/
inductive ErrMsg where
  | str (s : String)
  | obj (canceled : Bool)
  deriving DecidableEq, Repr

/-- An error delivered to the rejection handler of the underlying call. -/
structure AxiosError where
  message : Option ErrMsg := none
  deriving DecidableEq, Repr

/-- Everything one call to `fetch` produces, short of the asynchronous
settlement: the configuration issued to the chosen instance, which instance
was chosen, the internally created cancel token, what the handle's `cancel`
method does, the local `data`/`params` variables after encoding and the
get-shuffle (lines 135-148), and the effective tip options. -/
structure FetchIssue where
  config : RequestConfig
  usedMock : Bool
  internalToken : Nat
  cancelTarget : Nat
  cancelMessage : ErrMsg
  builtData : JsData
  builtParams : JsData
  successTip : TipVal
  errorTip : TipVal
  deriving DecidableEq, Repr

/-- The `DcFetch` instance state set up by the constructor: the two axios
instances' defaults (`this.defaults` / `this.mockDefaults` alias exactly
these) and the mock predicate.  The notification hooks are not stored because
settlement is modelled by recording hook invocations. -/
structure DcFetch where
  defaults : AxiosDefaults
  mockDefaults : AxiosDefaults
  isMock : String → JsData → String → FetchOptions → Bool

/-- The constructor (dc-fetch.js lines 62-77): both instances are created from
the same library defaults and configured by `setDefaultOption`; `isMock`
defaults to a predicate that always answers false. -/
def mkDcFetch (axiosCreateDefaults : AxiosDefaults)
    (isMock : Option (String → JsData → String → FetchOptions → Bool)) : DcFetch :=
  { defaults := setDefaultOption axiosCreateDefaults
    mockDefaults := setDefaultOption axiosCreateDefaults
    isMock := isMock.getD (fun _ _ _ _ => false) }

namespace DcFetch

/-- Instance selection (dc-fetch.js lines 111-127): `let instance =
this.instance; if (isMock) { instance = this.mockInstance; }` — projected to
the defaults, the only part of the instance the wrapper reads. -/
def chosenDefaults (self : DcFetch) (isMock : Bool) : AxiosDefaults :=
  if isMock then self.mockDefaults else self.defaults

/-- `fetch(url, data, method, options)` (dc-fetch.js lines 95-176), up to the
point where the request has been handed to the chosen axios instance.
`nextToken` is the fresh identity for the cancel token created by
`new CancelToken(c => cancel = c)`.  Indexing the defaults headers by an
unknown method throws in JavaScript, modelled by `none`. -/
def fetch (self : DcFetch) (nextToken : Nat) (url : String) (data? : Option JsData)
    (method : String) (options? : Option FetchOptions) : Option FetchIssue :=
  let data0 := jsOrEmpty data?
  let options := options?.getD {}
  let successTip := options.successTip.getD (TipVal.bool false)
  let errorTip := options.errorTip.getD
    (TipVal.str (if method == "get" then "获取数据失败！" else "操作失败！"))
  let isGet := method == "get"
  let isMock := self.isMock url data0 method options
  let instDefaults := self.chosenDefaults isMock
  match headersFor instDefaults.headers method with
  | none => none
  | some methodHeaders =>
    let data1 := encodeData (methodHeaders.contentType.getD "")
      (optionsContentType options) data0
    let params := if isGet then data1 else JsData.obj []
    let data2 := if isGet then JsData.obj [] else data1
    some {
      config := {
        method := options.method.getD method
        url := options.url.getD url
        data := options.data.getD data2
        params := options.params.getD params
        cancelToken := options.cancelToken.getD nextToken
        headers := options.headers
        timeout := options.timeout
        withCredentials := options.withCredentials
        successTip := options.successTip
        errorTip := options.errorTip }
      usedMock := isMock
      internalToken := nextToken
      cancelTarget := nextToken
      cancelMessage := ErrMsg.obj true
      builtData := data2
      builtParams := params
      successTip := successTip
      errorTip := errorTip }

/-- `get(url, params, options)` (lines 185-187). -/
def get (self : DcFetch) (nextToken : Nat) (url : String) (params : Option JsData)
    (options : Option FetchOptions) : Option FetchIssue :=
  self.fetch nextToken url params "get" options

/-- `post(url, data, options)` (lines 196-198). -/
def post (self : DcFetch) (nextToken : Nat) (url : String) (data : Option JsData)
    (options : Option FetchOptions) : Option FetchIssue :=
  self.fetch nextToken url data "post" options

/-- `put(url, data, options)` (lines 208-210). -/
def put (self : DcFetch) (nextToken : Nat) (url : String) (data : Option JsData)
    (options : Option FetchOptions) : Option FetchIssue :=
  self.fetch nextToken url data "put" options

/-- `patch(url, data, options)` (lines 219-221). -/
def patch (self : DcFetch) (nextToken : Nat) (url : String) (data : Option JsData)
    (options : Option FetchOptions) : Option FetchIssue :=
  self.fetch nextToken url data "patch" options

/-- `del(url, data, options)` (lines 230-232): issues the HTTP method
`delete`. -/
def del (self : DcFetch) (nextToken : Nat) (url : String) (data : Option JsData)
    (options : Option FetchOptions) : Option FetchIssue :=
  self.fetch nextToken url data "delete" options

end DcFetch

/-- A response delivered to the fulfilment handler of the underlying call. -/
structure AxiosResponse where
  data : JsData
  status : Nat := 200
  deriving DecidableEq, Repr

/-- How the underlying axios call terminates. -/
inductive AxiosOutcome where
  | success (response : AxiosResponse)
  | failure (err : AxiosError)
  deriving DecidableEq, Repr

/-- How the wrapper promise created by `fetch` ends up: resolved with
`response.data`, rejected with the error, or left pending forever (the
cancellation branch returns without calling either continuation). -/
inductive PromiseState where
  | resolved (value : JsData)
  | rejected (err : AxiosError)
  | pending
  deriving DecidableEq, Repr

/-- The observable effect of settling one `fetch` promise: the final promise
state and the arguments of the (at most one) notification-hook invocation. -/
structure SettleResult where
  promise : PromiseState
  successTipCall : Option (AxiosResponse × TipVal)
  errorTipCall : Option (AxiosError × TipVal)
  deriving DecidableEq, Repr

/-- JavaScript truthiness of an error's `message` property. -/
def errMsgTruthy : ErrMsg → Bool
  | .str s => !(s == "")
  | .obj _ => true

/-- The `canceled` property of an error's `message`: only an object message
can carry it; reading it off a string message yields `undefined` (falsy). -/
def errMsgCanceled : ErrMsg → Bool
  | .str _ => false
  | .obj c => c

/-- `err && err.message && err.message.canceled` (dc-fetch.js line 162). -/
def isCanceledErr (e : AxiosError) : Bool :=
  match e.message with
  | none => false
  | some m => errMsgTruthy m && errMsgCanceled m

/-- The promise settlement logic of `fetch` (dc-fetch.js lines 158-168): on a
response, invoke `onShowSuccessTip(response, successTip)` and resolve with
`response.data`; on an error whose message carries the `canceled` flag, do
nothing at all; on any other error, invoke `onShowErrorTip(err, errorTip)` and
reject with the error. -/
def settle (successTip errorTip : TipVal) : AxiosOutcome → SettleResult
  | .success response =>
      { promise := .resolved response.data
        successTipCall := some (response, successTip)
        errorTipCall := none }
  | .failure err =>
      if isCanceledErr err then
        { promise := .pending, successTipCall := none, errorTipCall := none }
      else
        { promise := .rejected err
          successTipCall := none
          errorTipCall := some (err, errorTip) }

/-- Association-list lookup for the `singleGets` map (`this.singleGets[url]`);
the stored value is the handle's cancel-token identity. -/
def lookupSG (m : List (String × Nat)) (url : String) : Option Nat :=
  match m with
  | [] => none
  | (k, v) :: rest => if k == url then some v else lookupSG rest url

/-- Association-list update for `this.singleGets[url] = singleFetch`. -/
def insertSG (m : List (String × Nat)) (url : String) (tok : Nat) : List (String × Nat) :=
  match m with
  | [] => [(url, tok)]
  | (k, v) :: rest => if k == url then (k, tok) :: rest else (k, v) :: insertSG rest url tok

/-- The mutable state a `DcFetch` instance accumulates across calls: the
`singleGets` map (each handle identified by its internal cancel token), the
set of tokens whose `cancel(...)` has been invoked, and the supply of fresh
token identities. -/
structure DcFetchState where
  singleGets : List (String × Nat) := []
  canceledTokens : List Nat := []
  nextToken : Nat := 0
  deriving DecidableEq, Repr

namespace DcFetch

/-- `singleGet(url, params, options)` (dc-fetch.js lines 245-253): cancel the
handle stored for `url` if any, issue a fresh `get` through `fetch`, store the
new handle under `url`, and return it.  Cancelling a handle records its
internal token (`fetchPromise.cancel` targets the internally created token). -/
def singleGet (self : DcFetch) (st : DcFetchState) (url : String)
    (params : Option JsData) (options : Option FetchOptions) :
    Option (FetchIssue × DcFetchState) :=
  let canceled :=
    match lookupSG st.singleGets url with
    | some oldTok => oldTok :: st.canceledTokens
    | none => st.canceledTokens
  match self.fetch st.nextToken url params "get" options with
  | none => none
  | some issue =>
      some (issue,
        { singleGets := insertSG st.singleGets url issue.cancelTarget
          canceledTokens := canceled
          nextToken := st.nextToken + 1 })

end DcFetch

/-- The six method names the higher-order component wires through
(react-hoc.jsx line 28). -/
def hocMethods : List String := ["get", "post", "put", "patch", "del", "singleGet"]

/-- `{propName = 'dcFetch'} = {}` (react-hoc.jsx line 22): the prop under
which the wrapper injects the method object. -/
def hocPropName (propName : Option String) : String :=
  propName.getD "dcFetch"

/-- The wrapper component's instance state: `this._$dcFetchTokens`, the list
of request handles recorded so far (each identified by its cancel target). -/
structure HocState where
  dcFetchTokens : List Nat := []
  deriving DecidableEq, Repr

/-- One call through an injected method (react-hoc.jsx lines 31-35):
only the six names of `hocMethods` are injected; a call obtains the handle
from the underlying dispatcher method, pushes it onto `_$dcFetchTokens`, and
returns it unchanged.  `dcFetchMethod` abstracts `dcFetch[method](...args)`,
yielding the handle's token identity. -/
def hocCallMethod (dcFetchMethod : String → List JsData → Nat) (m : String)
    (args : List JsData) (st : HocState) : Option (Nat × HocState) :=
  if m ∈ hocMethods then
    let dcFetchToken := dcFetchMethod m args
    some (dcFetchToken, { dcFetchTokens := st.dcFetchTokens ++ [dcFetchToken] })
  else none

/-- `componentWillUnmount` (react-hoc.jsx lines 39-41): the handles on which
`cancel()` is called at teardown — every recorded one. -/
def hocUnmountCancels (st : HocState) : List Nat :=
  st.dcFetchTokens

/-! ### Concrete instances and issues used by the witnesses -/

/-- A dispatcher built with the all-default constructor configuration. -/
def dcW : DcFetch := mkDcFetch {} none

/-- A dispatcher whose mock predicate routes urls equal to "/mock". -/
def dcMockW : DcFetch := mkDcFetch {} (some fun u _ _ _ => u == "/mock")

/-- A dispatcher whose real instance defaults carry a form-urlencoded
Content-Type for `post` (as a user would set via the exposed defaults). -/
def dcFormW : DcFetch :=
  { defaults := { headers := { post := { contentType := some formNeedle } } }
    mockDefaults := {}
    isMock := fun _ _ _ _ => false }

/-- `dcW.fetch 5 "/u" (some (JsData.obj [("a", "b")])) "get" none`. -/
def issueGetW : FetchIssue :=
  { config := { method := "get", url := "/u", data := JsData.obj []
                params := JsData.obj [("a", "b")], cancelToken := 5 }
    usedMock := false, internalToken := 5, cancelTarget := 5
    cancelMessage := ErrMsg.obj true
    builtData := JsData.obj [], builtParams := JsData.obj [("a", "b")]
    successTip := TipVal.bool false, errorTip := TipVal.str "获取数据失败！" }

/-- `dcW.fetch 5 "/u" (some (JsData.obj [("a", "b")])) "post" none`. -/
def issuePostW : FetchIssue :=
  { config := { method := "post", url := "/u", data := JsData.obj [("a", "b")]
                params := JsData.obj [], cancelToken := 5 }
    usedMock := false, internalToken := 5, cancelTarget := 5
    cancelMessage := ErrMsg.obj true
    builtData := JsData.obj [("a", "b")], builtParams := JsData.obj []
    successTip := TipVal.bool false, errorTip := TipVal.str "操作失败！" }

/-- `dcMockW.fetch 0 "/mock" none "get" none`. -/
def issueMockW : FetchIssue :=
  { config := { method := "get", url := "/mock", data := JsData.obj []
                params := JsData.obj [], cancelToken := 0 }
    usedMock := true, internalToken := 0, cancelTarget := 0
    cancelMessage := ErrMsg.obj true
    builtData := JsData.obj [], builtParams := JsData.obj []
    successTip := TipVal.bool false, errorTip := TipVal.str "获取数据失败！" }

/-- `dcW.fetch 0 "/mock" none "get" none`. -/
def issueRealW : FetchIssue :=
  { config := { method := "get", url := "/mock", data := JsData.obj []
                params := JsData.obj [], cancelToken := 0 }
    usedMock := false, internalToken := 0, cancelTarget := 0
    cancelMessage := ErrMsg.obj true
    builtData := JsData.obj [], builtParams := JsData.obj []
    successTip := TipVal.bool false, errorTip := TipVal.str "获取数据失败！" }

/-- `dcW.fetch 5 "/u" none "post" (some { cancelToken := some 2, method := some "PUT" })`. -/
def issueOverrideW : FetchIssue :=
  { config := { method := "PUT", url := "/u", data := JsData.obj []
                params := JsData.obj [], cancelToken := 2 }
    usedMock := false, internalToken := 5, cancelTarget := 5
    cancelMessage := ErrMsg.obj true
    builtData := JsData.obj [], builtParams := JsData.obj []
    successTip := TipVal.bool false, errorTip := TipVal.str "操作失败！" }

/-- `dcFormW.fetch 0 "/u" (some (JsData.obj [("a", "b")])) "post" none`. -/
def issueFormW : FetchIssue :=
  { config := { method := "post", url := "/u", data := JsData.str "a=b"
                params := JsData.obj [], cancelToken := 0 }
    usedMock := false, internalToken := 0, cancelTarget := 0
    cancelMessage := ErrMsg.obj true
    builtData := JsData.str "a=b", builtParams := JsData.obj []
    successTip := TipVal.bool false, errorTip := TipVal.str "操作失败！" }

/-- The issue returned by
`dcW.singleGet { singleGets := [("u", 3)], nextToken := 5 } "u" none none`. -/
def issueSGW : FetchIssue :=
  { config := { method := "get", url := "u", data := JsData.obj []
                params := JsData.obj [], cancelToken := 5 }
    usedMock := false, internalToken := 5, cancelTarget := 5
    cancelMessage := ErrMsg.obj true
    builtData := JsData.obj [], builtParams := JsData.obj []
    successTip := TipVal.bool false, errorTip := TipVal.str "获取数据失败！" }

/-- The state after that `singleGet` call. -/
def sgStW : DcFetchState :=
  { singleGets := [("u", 5)], canceledTokens := [3], nextToken := 6 }

/-! ### Helper lemmas -/

theorem headersFor_get (h : MethodHeaders) : headersFor h "get" = some h.get := rfl

theorem headersFor_post (h : MethodHeaders) : headersFor h "post" = some h.post := rfl

theorem headersFor_put (h : MethodHeaders) : headersFor h "put" = some h.put := rfl

theorem headersFor_patch (h : MethodHeaders) : headersFor h "patch" = some h.patch := rfl

theorem headersFor_delete (h : MethodHeaders) : headersFor h "delete" = some h.delete := rfl

theorem strContains_empty_formNeedle : strContains "" formNeedle = false := rfl

/-- The truthiness guard on `defaultsContentType` in the source is redundant:
the empty string never contains the (nonempty) form content type, so the
encoding condition is exactly "either content type contains it". -/
theorem encodeData_eq (dct ct : String) (d : JsData) :
    encodeData dct ct d =
      if strContains dct formNeedle || strContains ct formNeedle
      then JsData.str (qsStringify d) else d := by
  unfold encodeData
  cases hb : dct == "" with
  | true =>
      have hd : dct = "" := by simpa using hb
      subst hd
      simp [strContains_empty_formNeedle]
  | false => simp [hb]

/-- The single equation characterizing `fetch` whenever the selected
instance's per-method default headers exist (always the case for the five
methods the wrapper issues). -/
theorem fetch_eq_some_of_headers (self : DcFetch) (n : Nat) (url : String)
    (data? : Option JsData) (method : String) (options? : Option FetchOptions)
    (mh : Headers)
    (hh : headersFor (self.chosenDefaults
        (self.isMock url (jsOrEmpty data?) method (options?.getD {}))).headers method
      = some mh) :
    self.fetch n url data? method options? = some {
      config := {
        method := (options?.getD {}).method.getD method
        url := (options?.getD {}).url.getD url
        data := (options?.getD {}).data.getD (if method == "get" then JsData.obj []
          else encodeData (mh.contentType.getD "")
            (optionsContentType (options?.getD {})) (jsOrEmpty data?))
        params := (options?.getD {}).params.getD (if method == "get"
          then encodeData (mh.contentType.getD "")
            (optionsContentType (options?.getD {})) (jsOrEmpty data?)
          else JsData.obj [])
        cancelToken := (options?.getD {}).cancelToken.getD n
        headers := (options?.getD {}).headers
        timeout := (options?.getD {}).timeout
        withCredentials := (options?.getD {}).withCredentials
        successTip := (options?.getD {}).successTip
        errorTip := (options?.getD {}).errorTip }
      usedMock := self.isMock url (jsOrEmpty data?) method (options?.getD {})
      internalToken := n
      cancelTarget := n
      cancelMessage := ErrMsg.obj true
      builtData := if method == "get" then JsData.obj []
        else encodeData (mh.contentType.getD "")
          (optionsContentType (options?.getD {})) (jsOrEmpty data?)
      builtParams := if method == "get"
        then encodeData (mh.contentType.getD "")
          (optionsContentType (options?.getD {})) (jsOrEmpty data?)
        else JsData.obj []
      successTip := (options?.getD {}).successTip.getD (TipVal.bool false)
      errorTip := (options?.getD {}).errorTip.getD (TipVal.str
        (if method == "get" then "获取数据失败！" else "操作失败！")) } := by
  simp only [DcFetch.fetch]
  rw [hh]

/-- `fetch` models the JavaScript `TypeError` on an unknown method by
returning `none`. -/
theorem fetch_eq_none_of_headers (self : DcFetch) (n : Nat) (url : String)
    (data? : Option JsData) (method : String) (options? : Option FetchOptions)
    (hh : headersFor (self.chosenDefaults
        (self.isMock url (jsOrEmpty data?) method (options?.getD {}))).headers method
      = none) :
    self.fetch n url data? method options? = none := by
  simp only [DcFetch.fetch]
  rw [hh]

/-- Field-level consequences of a successful `fetch`, independent of which
per-method headers were found. -/
theorem fetch_fields (self : DcFetch) (n : Nat) (url : String)
    (data? : Option JsData) (method : String) (options? : Option FetchOptions)
    (issue : FetchIssue)
    (h : self.fetch n url data? method options? = some issue) :
    issue.usedMock = self.isMock url (jsOrEmpty data?) method (options?.getD {}) ∧
    issue.internalToken = n ∧
    issue.cancelTarget = n ∧
    issue.cancelMessage = ErrMsg.obj true ∧
    issue.successTip = (options?.getD {}).successTip.getD (TipVal.bool false) ∧
    issue.errorTip = (options?.getD {}).errorTip.getD (TipVal.str
      (if method == "get" then "获取数据失败！" else "操作失败！")) ∧
    issue.config.method = (options?.getD {}).method.getD method ∧
    issue.config.url = (options?.getD {}).url.getD url ∧
    issue.config.data = (options?.getD {}).data.getD issue.builtData ∧
    issue.config.params = (options?.getD {}).params.getD issue.builtParams ∧
    issue.config.cancelToken = (options?.getD {}).cancelToken.getD n := by
  cases hh : headersFor (self.chosenDefaults
      (self.isMock url (jsOrEmpty data?) method (options?.getD {}))).headers method with
  | none =>
      rw [fetch_eq_none_of_headers self n url data? method options? hh] at h
      cases h
  | some mh =>
      rw [fetch_eq_some_of_headers self n url data? method options? mh hh] at h
      injection h with h2
      subst h2
      exact ⟨rfl, rfl, rfl, rfl, rfl, rfl, rfl, rfl, rfl, rfl, rfl⟩

theorem lookupSG_insertSG_self (m : List (String × Nat)) (url : String) (tok : Nat) :
    lookupSG (insertSG m url tok) url = some tok := by
  induction m with
  | nil => simp [insertSG, lookupSG]
  | cons kv rest ih =>
      obtain ⟨k, v⟩ := kv
      cases hk : k == url with
      | true => simp [insertSG, lookupSG, hk]
      | false => simp [insertSG, lookupSG, hk, ih]

theorem lookupSG_insertSG_ne (m : List (String × Nat)) (url u : String) (tok : Nat)
    (h : u ≠ url) :
    lookupSG (insertSG m url tok) u = lookupSG m u := by
  have hne : (url == u) = false := by
    simp only [beq_eq_false_iff_ne]
    exact fun hc => h hc.symm
  induction m with
  | nil => simp [insertSG, lookupSG, hne]
  | cons kv rest ih =>
      obtain ⟨k, v⟩ := kv
      cases hk : k == url with
      | true =>
          have hku : k = url := by simpa using hk
          subst hku
          simp [insertSG, lookupSG, hk, hne]
      | false => simp [insertSG, lookupSG, hk, ih]

/-! ### Concrete evaluation lemmas for the witnesses -/

theorem dcW_fetch_get_eq :
    dcW.fetch 5 "/u" (some (JsData.obj [("a", "b")])) "get" none = some issueGetW := rfl

theorem dcW_fetch_post_eq :
    dcW.fetch 5 "/u" (some (JsData.obj [("a", "b")])) "post" none = some issuePostW := rfl

theorem dcMockW_fetch_eq :
    dcMockW.fetch 0 "/mock" none "get" none = some issueMockW := rfl

theorem dcRealW_fetch_eq :
    dcW.fetch 0 "/mock" none "get" none = some issueRealW := rfl

theorem dcW_fetch_override_eq :
    dcW.fetch 5 "/u" none "post" (some { cancelToken := some 2, method := some "PUT" }) =
      some issueOverrideW := rfl

theorem dcFormW_fetch_eq :
    dcFormW.fetch 0 "/u" (some (JsData.obj [("a", "b")])) "post" none = some issueFormW := rfl

theorem dcW_singleGet_eq :
    dcW.singleGet { singleGets := [("u", 3)], canceledTokens := [], nextToken := 5 }
      "u" none none = some (issueSGW, sgStW) := rfl

/-! ### Claims -/

/-- Claim C1: `singleGet(url, params, options)` first cancels the handle
currently stored in the `singleGets` map under that url (if one is present),
then issues a new get request via `fetch` and stores its handle at
`singleGets[url]`, returning that handle; afterwards the map holds exactly the
most recently issued handle for that url, other urls being untouched. -/
theorem singleGet_cancels_and_stores_latest (self : DcFetch) (st : DcFetchState)
    (url u : String) (params : Option JsData) (options : Option FetchOptions)
    (issue : FetchIssue) (st' : DcFetchState) (oldTok : Nat)
    (h : self.singleGet st url params options = some (issue, st')) :
    self.fetch st.nextToken url params "get" options = some issue ∧
    issue.internalToken = st.nextToken ∧
    lookupSG st'.singleGets url = some issue.internalToken ∧
    st'.nextToken = st.nextToken + 1 ∧
    (lookupSG st.singleGets url = some oldTok → oldTok ∈ st'.canceledTokens) ∧
    (lookupSG st.singleGets url = none → st'.canceledTokens = st.canceledTokens) ∧
    (u ≠ url → lookupSG st'.singleGets u = lookupSG st.singleGets u) := by
  have hf := fetch_eq_some_of_headers self st.nextToken url params "get" options
    ((self.chosenDefaults (self.isMock url (jsOrEmpty params) "get"
      (options.getD {}))).headers.get) (headersFor_get _)
  simp only [DcFetch.singleGet, hf, Option.some.injEq, Prod.mk.injEq] at h
  obtain ⟨hi, hs⟩ := h
  subst hi
  subst hs
  refine ⟨hf, rfl, lookupSG_insertSG_self st.singleGets url st.nextToken, rfl, ?_, ?_, ?_⟩
  · intro hl
    rw [hl]
    exact List.mem_cons_self _ _
  · intro hl
    rw [hl]
  · intro hu
    exact lookupSG_insertSG_ne st.singleGets url u st.nextToken hu

/-- Witness for C1 at a concrete state holding an old handle 3 for "u". -/
theorem singleGet_cancels_and_stores_latest_witness :
    lookupSG sgStW.singleGets "u" = some 5 ∧ (3 : Nat) ∈ sgStW.canceledTokens ∧
    lookupSG sgStW.singleGets "v" = lookupSG [("u", 3)] "v" := by
  have h := singleGet_cancels_and_stores_latest dcW
    { singleGets := [("u", 3)], canceledTokens := [], nextToken := 5 } "u" "v" none none
    issueSGW sgStW 3 dcW_singleGet_eq
  exact ⟨h.2.2.1, h.2.2.2.2.1 rfl, h.2.2.2.2.2.2 (by decide)⟩

/-- Claim C2: every `fetch` handle carries a `cancel` whose message bears the
`canceled` flag, and when the underlying request terminates with an error
whose message carries that flag, the promise is neither resolved nor rejected
and neither notification hook is invoked. -/
theorem fetch_cancel_flag_silences (self : DcFetch) (n : Nat) (url : String)
    (data? : Option JsData) (method : String) (options? : Option FetchOptions)
    (issue : FetchIssue) (err : AxiosError)
    (h : self.fetch n url data? method options? = some issue)
    (hc : isCanceledErr err = true) :
    isCanceledErr { message := some issue.cancelMessage } = true ∧
    settle issue.successTip issue.errorTip (.failure err) =
      { promise := .pending, successTipCall := none, errorTipCall := none } := by
  have hf := fetch_fields self n url data? method options? issue h
  refine ⟨?_, ?_⟩
  · rw [hf.2.2.2.1]
    rfl
  · simp [settle, hc]

/-- Witness for C2 on the default-configuration get call. -/
theorem fetch_cancel_flag_silences_witness :
    isCanceledErr { message := some issueGetW.cancelMessage } = true ∧
    settle issueGetW.successTip issueGetW.errorTip
        (.failure { message := some (ErrMsg.obj true) }) =
      { promise := .pending, successTipCall := none, errorTipCall := none } :=
  fetch_cancel_flag_silences dcW 5 "/u" (some (JsData.obj [("a", "b")])) "get" none
    issueGetW { message := some (ErrMsg.obj true) } dcW_fetch_get_eq rfl

/-- Claim C3: the higher-order wrapper injects the six methods
get/post/put/patch/del/singleGet under the configured prop name (default
"dcFetch"); a call through an injected method appends the handle returned by
the underlying dispatcher to the token list and returns it unchanged, and
teardown cancels every recorded handle. -/
theorem hoc_injects_records_cancels (f : String → List JsData → Nat) (m : String)
    (args : List JsData) (st : HocState) (tok : Nat) (st' : HocState) (t : Nat)
    (h : hocCallMethod f m args st = some (tok, st'))
    (hmem : t ∈ st.dcFetchTokens) :
    hocPropName none = "dcFetch" ∧
    hocMethods = ["get", "post", "put", "patch", "del", "singleGet"] ∧
    m ∈ hocMethods ∧
    tok = f m args ∧
    st'.dcFetchTokens = st.dcFetchTokens ++ [tok] ∧
    t ∈ hocUnmountCancels st := by
  unfold hocCallMethod at h
  by_cases hm : m ∈ hocMethods
  · rw [if_pos hm] at h
    injection h with h2
    injection h2 with ha hb
    subst ha
    subst hb
    exact ⟨rfl, rfl, hm, rfl, rfl, hmem⟩
  · rw [if_neg hm] at h
    cases h

/-- Witness for C3: a call through the injected "get". -/
theorem hoc_injects_records_cancels_witness :
    hocPropName none = "dcFetch" ∧
    hocMethods = ["get", "post", "put", "patch", "del", "singleGet"] ∧
    "get" ∈ hocMethods ∧
    (7 : Nat) = 7 ∧
    ({ dcFetchTokens := [1, 7] } : HocState).dcFetchTokens = [1] ++ [7] ∧
    (1 : Nat) ∈ hocUnmountCancels { dcFetchTokens := [1] } :=
  hoc_injects_records_cancels (fun _ _ => 7) "get" [] { dcFetchTokens := [1] } 7
    { dcFetchTokens := [1, 7] } 1 rfl (by simp)

/-- Claim C4: with method "get" the dispatcher places the (possibly
form-encoded) caller data in the `params` slot and an empty object in the
`data` slot; with any of the other four methods the data goes to the `data`
slot and `params` is an empty object. -/
theorem fetch_get_params_else_data (self : DcFetch) (n : Nat) (url : String)
    (data? : Option JsData) (options? : Option FetchOptions)
    (issueG : FetchIssue) (method : String) (mh : Headers) (issueM : FetchIssue)
    (hG : self.fetch n url data? "get" options? = some issueG)
    (hm : method ∈ ["post", "put", "patch", "delete"])
    (hh : headersFor (self.chosenDefaults
        (self.isMock url (jsOrEmpty data?) method (options?.getD {}))).headers method
      = some mh)
    (hM : self.fetch n url data? method options? = some issueM) :
    issueG.builtParams = encodeData
        ((self.chosenDefaults (self.isMock url (jsOrEmpty data?) "get"
            (options?.getD {}))).headers.get.contentType.getD "")
        (optionsContentType (options?.getD {})) (jsOrEmpty data?) ∧
    issueG.builtData = JsData.obj [] ∧
    issueM.builtParams = JsData.obj [] ∧
    issueM.builtData = encodeData (mh.contentType.getD "")
        (optionsContentType (options?.getD {})) (jsOrEmpty data?) := by
  rw [fetch_eq_some_of_headers self n url data? "get" options?
    ((self.chosenDefaults (self.isMock url (jsOrEmpty data?) "get"
      (options?.getD {}))).headers.get) (headersFor_get _)] at hG
  injection hG with hG2
  subst hG2
  simp only [List.mem_cons, List.not_mem_nil, or_false] at hm
  rcases hm with rfl | rfl | rfl | rfl <;>
  · rw [fetch_eq_some_of_headers self n url data? _ options? mh hh] at hM
    injection hM with hM2
    subst hM2
    exact ⟨rfl, rfl, rfl, rfl⟩

/-- Witness for C4: the same data lands in `params` for get and in `data` for
post under the default (non-encoding) configuration. -/
theorem fetch_get_params_else_data_witness :
    issueGetW.builtParams = JsData.obj [("a", "b")] ∧
    issueGetW.builtData = JsData.obj [] ∧
    issuePostW.builtParams = JsData.obj [] ∧
    issuePostW.builtData = JsData.obj [("a", "b")] :=
  fetch_get_params_else_data dcW 5 "/u" (some (JsData.obj [("a", "b")])) none
    issueGetW "post" { contentType := some "application/json" } issuePostW
    dcW_fetch_get_eq (by simp) rfl dcW_fetch_post_eq

/-- Claim C5: the payload is form-encoded exactly when the selected instance's
default Content-Type for the method contains "application/x-www-form-urlencoded"
or the per-call options header contains it; otherwise it passes through
unchanged (the truthiness guard in the source being redundant). -/
theorem fetch_form_encoding_iff (self : DcFetch) (n : Nat) (url : String)
    (data? : Option JsData) (method : String) (options? : Option FetchOptions)
    (mh : Headers) (issue : FetchIssue)
    (hh : headersFor (self.chosenDefaults
        (self.isMock url (jsOrEmpty data?) method (options?.getD {}))).headers method
      = some mh)
    (h : self.fetch n url data? method options? = some issue) :
    (if method == "get" then issue.builtParams else issue.builtData) =
      (if strContains (mh.contentType.getD "") formNeedle
          || strContains (optionsContentType (options?.getD {})) formNeedle
       then JsData.str (qsStringify (jsOrEmpty data?))
       else jsOrEmpty data?) := by
  rw [fetch_eq_some_of_headers self n url data? method options? mh hh] at h
  injection h with h2
  subst h2
  cases hg : method == "get" <;> simp [hg, encodeData_eq]

/-- Witness for C5: a post against form-urlencoded defaults is stringified. -/
theorem fetch_form_encoding_iff_witness :
    issueFormW.builtData = JsData.str "a=b" :=
  fetch_form_encoding_iff dcFormW 0 "/u" (some (JsData.obj [("a", "b")])) "post" none
    { contentType := some formNeedle } issueFormW rfl dcFormW_fetch_eq

/-- Claim C6: the request goes through the mock instance exactly when the
configured `isMock(url, data, method, options)` predicate answers true, and
with the default constructor configuration every request goes through the
real instance. -/
theorem fetch_mock_selection (self : DcFetch) (n : Nat) (url : String)
    (data? : Option JsData) (method : String) (options? : Option FetchOptions)
    (issue : FetchIssue) (init : AxiosDefaults) (issueDefault : FetchIssue)
    (h : self.fetch n url data? method options? = some issue)
    (hdef : (mkDcFetch init none).fetch n url data? method options? = some issueDefault) :
    issue.usedMock = self.isMock url (jsOrEmpty data?) method (options?.getD {}) ∧
    issueDefault.usedMock = false :=
  ⟨(fetch_fields self n url data? method options? issue h).1,
   (fetch_fields (mkDcFetch init none) n url data? method options? issueDefault hdef).1⟩

/-- Witness for C6: a "/mock" url is routed to the mock instance by the
predicate, and the default configuration never mocks. -/
theorem fetch_mock_selection_witness :
    issueMockW.usedMock = true ∧ issueRealW.usedMock = false :=
  fetch_mock_selection dcMockW 0 "/mock" none "get" none issueMockW {} issueRealW
    dcMockW_fetch_eq dcRealW_fetch_eq

/-- Claim C7: on success the `onShowSuccessTip` hook receives the response and
the `successTip` option (default false) and the promise resolves with
`response.data`; on a non-cancel error the `onShowErrorTip` hook receives the
error and the `errorTip` option and the promise rejects with that error. -/
theorem fetch_success_error_hooks (self : DcFetch) (n : Nat) (url : String)
    (data? : Option JsData) (method : String) (options? : Option FetchOptions)
    (issue : FetchIssue) (resp : AxiosResponse) (err : AxiosError)
    (h : self.fetch n url data? method options? = some issue)
    (hce : isCanceledErr err = false) :
    issue.successTip = (options?.getD {}).successTip.getD (TipVal.bool false) ∧
    issue.errorTip = (options?.getD {}).errorTip.getD (TipVal.str
      (if method == "get" then "获取数据失败！" else "操作失败！")) ∧
    settle issue.successTip issue.errorTip (.success resp) =
      { promise := .resolved resp.data
        successTipCall := some (resp, issue.successTip)
        errorTipCall := none } ∧
    settle issue.successTip issue.errorTip (.failure err) =
      { promise := .rejected err
        successTipCall := none
        errorTipCall := some (err, issue.errorTip) } := by
  have hf := fetch_fields self n url data? method options? issue h
  exact ⟨hf.2.2.2.2.1, hf.2.2.2.2.2.1, by simp [settle], by simp [settle, hce]⟩

/-- Witness for C7 on the default-configuration get call. -/
theorem fetch_success_error_hooks_witness :
    issueGetW.successTip = TipVal.bool false ∧
    issueGetW.errorTip = TipVal.str "获取数据失败！" ∧
    settle issueGetW.successTip issueGetW.errorTip
        (.success { data := JsData.str "ok" }) =
      { promise := .resolved (JsData.str "ok")
        successTipCall := some ({ data := JsData.str "ok" }, TipVal.bool false)
        errorTipCall := none } ∧
    settle issueGetW.successTip issueGetW.errorTip
        (.failure { message := some (ErrMsg.str "boom") }) =
      { promise := .rejected { message := some (ErrMsg.str "boom") }
        successTipCall := none
        errorTipCall := some ({ message := some (ErrMsg.str "boom") },
          TipVal.str "获取数据失败！") } :=
  fetch_success_error_hooks dcW 5 "/u" (some (JsData.obj [("a", "b")])) "get" none
    issueGetW { data := JsData.str "ok" } { message := some (ErrMsg.str "boom") }
    dcW_fetch_get_eq rfl

/-- Claim C8: the constructor configures both instances with the same
defaults — timeout 10000, Content-Type application/json for post and put,
baseURL "/", withCredentials true — and those defaults remain overridable
through the exposed `defaults` / `mockDefaults` objects, which `fetch`
consults on every call. -/
theorem constructor_sets_shared_defaults (init : AxiosDefaults)
    (isMockArg : Option (String → JsData → String → FetchOptions → Bool)) :
    (mkDcFetch init isMockArg).defaults = (mkDcFetch init isMockArg).mockDefaults ∧
    (mkDcFetch init isMockArg).defaults.timeout = 10000 ∧
    (mkDcFetch init isMockArg).defaults.headers.post.contentType =
      some "application/json" ∧
    (mkDcFetch init isMockArg).defaults.headers.put.contentType =
      some "application/json" ∧
    (mkDcFetch init isMockArg).defaults.baseURL = "/" ∧
    (mkDcFetch init isMockArg).defaults.withCredentials = true ∧
    (∀ (d : AxiosDefaults) (n : Nat) (u : String) (fields : List (String × String)),
      (({ mkDcFetch init none with defaults := d } : DcFetch).fetch n u
          (some (JsData.obj fields)) "get" none).map FetchIssue.builtParams =
        some (encodeData (d.headers.get.contentType.getD "") ""
          (JsData.obj fields))) ∧
    (∀ (d : AxiosDefaults) (n : Nat) (u : String) (fields : List (String × String)),
      (({ mkDcFetch init (some fun _ _ _ _ => true) with mockDefaults := d } :
          DcFetch).fetch n u
          (some (JsData.obj fields)) "get" none).map FetchIssue.builtParams =
        some (encodeData (d.headers.get.contentType.getD "") ""
          (JsData.obj fields))) := by
  refine ⟨rfl, rfl, rfl, rfl, rfl, rfl, ?_, ?_⟩
  · intro d n u fields
    rw [fetch_eq_some_of_headers _ n u (some (JsData.obj fields)) "get" none _
      (headersFor_get _)]
    rfl
  · intro d n u fields
    rw [fetch_eq_some_of_headers _ n u (some (JsData.obj fields)) "get" none _
      (headersFor_get _)]
    rfl

/-- Claim C9: each of get/post/put/patch/del equals `fetch` with the same
url, data and options and the method fixed to "get"/"post"/"put"/"patch"/
"delete" respectively (`del` issues "delete", not "del"). -/
theorem methods_delegate_to_fetch (self : DcFetch) (n : Nat) (url : String)
    (d : Option JsData) (o : Option FetchOptions) :
    self.get n url d o = self.fetch n url d "get" o ∧
    self.post n url d o = self.fetch n url d "post" o ∧
    self.put n url d o = self.fetch n url d "put" o ∧
    self.patch n url d o = self.fetch n url d "patch" o ∧
    self.del n url d o = self.fetch n url d "delete" o :=
  ⟨rfl, rfl, rfl, rfl, rfl⟩

/-- Claim C10: keys present in the per-call options override the values the
dispatcher built (method, url, data, params, cancelToken), and when the
options carry their own cancelToken the handle's cancel still targets the
internally created token, which is no longer the one the issued request
listens on. -/
theorem options_spread_overrides (self : DcFetch) (n : Nat) (url : String)
    (data? : Option JsData) (method : String) (opts : FetchOptions)
    (issue : FetchIssue) (t : Nat)
    (h : self.fetch n url data? method (some opts) = some issue)
    (ht : opts.cancelToken = some t) (hne : t ≠ n) :
    issue.config.method = opts.method.getD method ∧
    issue.config.url = opts.url.getD url ∧
    issue.config.data = opts.data.getD issue.builtData ∧
    issue.config.params = opts.params.getD issue.builtParams ∧
    issue.config.cancelToken = t ∧
    issue.cancelTarget = n ∧
    issue.cancelTarget ≠ issue.config.cancelToken := by
  have hf := fetch_fields self n url data? method (some opts) issue h
  refine ⟨hf.2.2.2.2.2.2.1, hf.2.2.2.2.2.2.2.1, hf.2.2.2.2.2.2.2.2.1,
    hf.2.2.2.2.2.2.2.2.2.1, ?_, hf.2.2.1, ?_⟩
  · simp only [hf.2.2.2.2.2.2.2.2.2.2, Option.getD_some, ht]
  · rw [hf.2.2.1]
    simp only [hf.2.2.2.2.2.2.2.2.2.2, Option.getD_some, ht]
    exact Ne.symm hne

/-- Witness for C10: a post whose options override method and cancelToken. -/
theorem options_spread_overrides_witness :
    issueOverrideW.config.method = "PUT" ∧
    issueOverrideW.config.url = "/u" ∧
    issueOverrideW.config.data = issueOverrideW.builtData ∧
    issueOverrideW.config.params = issueOverrideW.builtParams ∧
    issueOverrideW.config.cancelToken = 2 ∧
    issueOverrideW.cancelTarget = 5 ∧
    issueOverrideW.cancelTarget ≠ issueOverrideW.config.cancelToken :=
  options_spread_overrides dcW 5 "/u" none "post"
    { cancelToken := some 2, method := some "PUT" } issueOverrideW 2
    dcW_fetch_override_eq rfl (by decide)
